import Mathlib

/-!
# Go bindings for the RocksDB C API: backup engine and option objects

A shallow embedding of `backupable_db.go` and `options.go`.

The Go code is a thin layer over the C library `librocksdb`: every method
converts its arguments to C values, makes native calls and converts the
results back.  The library itself is not part of the repository, so it is a
parameter of the model: a deterministic machine `Native σ` over an arbitrary
state `σ` that answers each call.  The Go side is embedded as state-passing
functions over a `World`, which holds the state of the native library, the
history of the native calls made so far and the lines written with the `log`
package.

Platform: Go `int` and `uint` are 64 bits wide, C `int` and `unsigned` are
32 bits wide, `size_t` is 64 bits wide (amd64 and arm64).  Integers are
mathematical integers and every conversion of the source is an explicit
wrap-around function.

Pointer receivers and pointer arguments that the source dereferences without a
test are taken to be non-nil (a nil one makes Go stop with a run-time panic
before any native call).  The temporary C strings made by `C.CString` and
released by `C.free` belong to the C allocator; strings are passed by value.
The file `env.go` belongs to another package (`levigo`) and is not embedded.
-/

set_option linter.dupNamespace false

namespace Rocksdb

/-! ## Values crossing the cgo boundary -/

/-- A native pointer, given by its address; `0` is the NULL (Go `nil`) pointer. -/
abbrev Handle := Nat

/-- An argument of a native call: a pointer, an integer or a C string. -/
inductive CVal where
  | ptr (h : Handle)
  | int (n : Int)
  | str (s : String)
deriving DecidableEq, Repr

/-- One call of a function of the C library: its C name and its arguments in
order.  An error out-parameter (`&errStr`) is not listed among the arguments;
what the library stores through it is part of the answer. -/
structure NativeCall where
  name : String
  args : List CVal
deriving DecidableEq, Repr

/-- The answer of the library to one call: the returned pointer (for the
functions that return one), the returned integer (for the functions that
return one) and the string stored through the error out-parameter, `none`
when the library left it NULL.  A binding reads `num` at the return type that
the header `rocksdb/c.h` declares for its function (`C.int r.num` for a
function returning `int`), so what it sees is always a value of that type. -/
structure NativeRet where
  ptr : Handle
  num : Int
  err : Option String
deriving DecidableEq, Repr

/-- The C library as a deterministic machine over its own state. -/
structure Native (σ : Type) where
  exec : NativeCall → σ → NativeRet × σ

/-- The Go process together with the library it is linked with. -/
structure World (σ : Type) where
  /-- state of the native library -/
  native : σ
  /-- native calls made so far, oldest first -/
  calls : List NativeCall
  /-- lines written through the standard logger, oldest first -/
  logged : List String

/-- Perform one native call: the library answers and moves to its next state,
and the call is appended to the history. -/
def call {σ : Type} (N : Native σ) (c : NativeCall) (w : World σ) : NativeRet × World σ :=
  ((N.exec c w.native).1, World.mk (N.exec c w.native).2 (w.calls ++ [c]) w.logged)

/-- Go `log.Println(msg)`: one line on the standard logger (the time stamp that
the logger puts in front is not modelled). -/
def logPrintln {σ : Type} (msg : String) (w : World σ) : World σ :=
  World.mk w.native w.calls (w.logged ++ [msg])

/-! ## Integer conversions -/

/-- Go conversion `int(x)` of an integer value: wrap to 64 bits, signed. -/
def int (x : Int) : Int :=
  (x + 9223372036854775808) % 18446744073709551616 - 9223372036854775808

namespace C

/-- Conversion to C `int`: wrap to 32 bits, signed. -/
def int (x : Int) : Int := (x + 2147483648) % 4294967296 - 2147483648

/-- Conversion to C `unsigned int`: wrap to 32 bits, unsigned. -/
def uint (x : Int) : Int := x % 4294967296

/-- Conversion to C `uint32_t`. -/
def uint32_t (x : Int) : Int := x % 4294967296

/-- Conversion to C `int64_t`. -/
def int64_t (x : Int) : Int :=
  (x + 9223372036854775808) % 18446744073709551616 - 9223372036854775808

/-- Conversion to C `uint64_t`. -/
def uint64_t (x : Int) : Int := x % 18446744073709551616

/-- Conversion to C `size_t` (64 bits, unsigned). -/
def size_t (x : Int) : Int := x % 18446744073709551616

/-- The C string made from a Go string by `C.CString`: a copy of its bytes (the
library reads it up to the first NUL byte). -/
def CString (s : String) : String := s

/-- The Go string made from a C string by `C.GoString`: a copy of its bytes. -/
def GoString (s : String) : String := s

end C

/-! ## Types declared in other files of the package -/

/-- Modelled from the spec: the error type `DatabaseError` is declared in a file
of the package that is not among the sources; the source builds it with the
conversion `DatabaseError(gs)` from a string, and the spec describes it as a
single error value carrying a human-readable message sourced from the
underlying engine. -/
structure DatabaseError where
  msg : String
deriving DecidableEq, Repr

/-- Modelled from the spec: the database type `DB` (the open storage engine
instance) is declared outside the sources; only its field `Ldb`, the native
database pointer read by `CreateNewBackup`, is kept. -/
structure DB where
  Ldb : Handle
deriving DecidableEq, Repr

/-- Modelled from the spec: the environment type `Env` (background thread pool
configuration) is declared outside the sources; only its field `Env`, the
native pointer read by `SetEnv` and by the thread setters, is kept. -/
structure Env where
  Env : Handle
deriving DecidableEq, Repr

/-- Modelled from the spec: the snapshot type `Snapshot` is declared outside the
sources; only its field `snap`, the native pointer read by `SetSnapshot`, is
kept. -/
structure Snapshot where
  snap : Handle
deriving DecidableEq, Repr

/-- Modelled from the spec: the cache type `Cache` is declared outside the
sources; its native pointer `Cache` is named only in a comment of `SetCache`. -/
structure Cache where
  Cache : Handle
deriving DecidableEq, Repr

/-- Modelled from the spec: the filter policy type `FilterPolicy` is declared
outside the sources; its native pointer `Policy` is named only in a comment of
`SetFilterPolicy`. -/
structure FilterPolicy where
  Policy : Handle
deriving DecidableEq, Repr

/-! ## backupable_db.go -/

/-- Go `type Options struct { Opt *C.rocksdb_options_t; readOnly bool }`
(options.go). -/
structure Options where
  Opt : Handle
  readOnly : Bool
deriving DecidableEq, Repr

structure BackupEngine where
  Engine : Handle
deriving DecidableEq, Repr

structure RestoreOptions where
  Opt : Handle
deriving DecidableEq, Repr

structure BackupEngineInfo where
  Info : Handle
deriving DecidableEq, Repr

/-- Go `func BackupEngineOpen(o *Options, path string) (*BackupEngine, error)`.
A nil result pointer and a nil error are `none`. -/
def BackupEngineOpen {σ : Type} (N : Native σ) (o : Options) (path : String) (w : World σ) :
    (Option BackupEngine × Option DatabaseError) × World σ :=
  let cPath := C.CString path
  let r := call N ⟨"rocksdb_backup_engine_open", [.ptr o.Opt, .str cPath]⟩ w
  match r.1.err with
  | some errStr => ((none, some (DatabaseError.mk (C.GoString errStr))), r.2)
  | none => ((some (BackupEngine.mk r.1.ptr), none), r.2)

/-- Go `func (be *BackupEngine) CreateNewBackup(db *DB) error`. -/
def BackupEngine.CreateNewBackup {σ : Type} (N : Native σ) (be : BackupEngine) (db : DB)
    (w : World σ) : Option DatabaseError × World σ :=
  let r := call N ⟨"rocksdb_backup_engine_create_new_backup", [.ptr be.Engine, .ptr db.Ldb]⟩ w
  match r.1.err with
  | some errStr => (some (DatabaseError.mk (C.GoString errStr)), r.2)
  | none => (none, r.2)

/-- Go `func (be *BackupEngine) GetBackupInfo() *BackupEngineInfo`. -/
def BackupEngine.GetBackupInfo {σ : Type} (N : Native σ) (be : BackupEngine) (w : World σ) :
    BackupEngineInfo × World σ :=
  let r := call N ⟨"rocksdb_backup_engine_get_backup_info", [.ptr be.Engine]⟩ w
  (BackupEngineInfo.mk r.1.ptr, r.2)

/-- Go `func (bei *BackupEngineInfo) Count() int`.  The native function returns
a C `int`. -/
def BackupEngineInfo.Count {σ : Type} (N : Native σ) (bei : BackupEngineInfo) (w : World σ) :
    Int × World σ :=
  let r := call N ⟨"rocksdb_backup_engine_info_count", [.ptr bei.Info]⟩ w
  (int (C.int r.1.num), r.2)

/-- Go `func (bei *BackupEngineInfo) Timestamp(index int) int`.  The native
function returns an `int64_t`. -/
def BackupEngineInfo.Timestamp {σ : Type} (N : Native σ) (bei : BackupEngineInfo) (index : Int)
    (w : World σ) : Int × World σ :=
  let r := call N ⟨"rocksdb_backup_engine_info_timestamp", [.ptr bei.Info, .int (C.int index)]⟩ w
  (int (C.int64_t r.1.num), r.2)

/-- Go `func (bei *BackupEngineInfo) BackupId(index int) int`.  The native
function returns a `uint32_t`. -/
def BackupEngineInfo.BackupId {σ : Type} (N : Native σ) (bei : BackupEngineInfo) (index : Int)
    (w : World σ) : Int × World σ :=
  let r := call N ⟨"rocksdb_backup_engine_info_backup_id", [.ptr bei.Info, .int (C.int index)]⟩ w
  (int (C.uint32_t r.1.num), r.2)

/-- Go `func (bei *BackupEngineInfo) NumberFiles(index int) int`.  The native
function returns a `uint32_t`. -/
def BackupEngineInfo.NumberFiles {σ : Type} (N : Native σ) (bei : BackupEngineInfo) (index : Int)
    (w : World σ) : Int × World σ :=
  let r := call N ⟨"rocksdb_backup_engine_info_number_files", [.ptr bei.Info, .int (C.int index)]⟩ w
  (int (C.uint32_t r.1.num), r.2)

/-- Go `func (bei *BackupEngineInfo) Destroy()`.  The receiver is not changed:
its field `Info` still holds the released pointer. -/
def BackupEngineInfo.Destroy {σ : Type} (N : Native σ) (bei : BackupEngineInfo) (w : World σ) :
    BackupEngineInfo × World σ :=
  let r := call N ⟨"rocksdb_backup_engine_info_destroy", [.ptr bei.Info]⟩ w
  (bei, r.2)

/-- Go `func (bei *BackupEngineInfo) Size(index int) int`.  The native function
returns a `uint64_t`. -/
def BackupEngineInfo.Size {σ : Type} (N : Native σ) (bei : BackupEngineInfo) (index : Int)
    (w : World σ) : Int × World σ :=
  let r := call N ⟨"rocksdb_backup_engine_info_size", [.ptr bei.Info, .int (C.int index)]⟩ w
  (int (C.uint64_t r.1.num), r.2)

/-- Go `func CreateRestoreOptions() *RestoreOptions`. -/
def CreateRestoreOptions {σ : Type} (N : Native σ) (w : World σ) : RestoreOptions × World σ :=
  let r := call N ⟨"rocksdb_restore_options_create", []⟩ w
  (RestoreOptions.mk r.1.ptr, r.2)

/-- Go `func (ro *RestoreOptions) Destroy()`. -/
def RestoreOptions.Destroy {σ : Type} (N : Native σ) (ro : RestoreOptions) (w : World σ) :
    World σ :=
  (call N ⟨"rocksdb_restore_options_destroy", [.ptr ro.Opt]⟩ w).2

/-- Go `func (ro *RestoreOptions) SetKeepLogFiles(v int)`. -/
def RestoreOptions.SetKeepLogFiles {σ : Type} (N : Native σ) (ro : RestoreOptions) (v : Int)
    (w : World σ) : World σ :=
  (call N ⟨"rocksdb_restore_options_set_keep_log_files", [.ptr ro.Opt, .int (C.int v)]⟩ w).2

/-- Go `func (be *BackupEngine) RestoreDbFromLatestBackup(dbDir string,
walDir string, options *RestoreOptions) error`. -/
def BackupEngine.RestoreDbFromLatestBackup {σ : Type} (N : Native σ) (be : BackupEngine)
    (dbDir : String) (walDir : String) (options : RestoreOptions) (w : World σ) :
    Option DatabaseError × World σ :=
  let cDbDir := C.CString dbDir
  let cWalDir := C.CString walDir
  let r := call N ⟨"rocksdb_backup_engine_restore_db_from_latest_backup",
    [.ptr be.Engine, .str cDbDir, .str cWalDir, .ptr options.Opt]⟩ w
  match r.1.err with
  | some errStr => (some (DatabaseError.mk (C.GoString errStr)), r.2)
  | none => (none, r.2)

/-- Go `func (be *BackupEngine) Close()`. -/
def BackupEngine.Close {σ : Type} (N : Native σ) (be : BackupEngine) (w : World σ) : World σ :=
  (call N ⟨"rocksdb_backup_engine_close", [.ptr be.Engine]⟩ w).2

/-! ## options.go

The helper `boolToUchar` is declared in a file of the package that is not among
the sources; it is a parameter of every definition that uses it. -/

/-- Go `type CompressionOpt int`. -/
abbrev CompressionOpt := Int

/-- Go `NoCompression = CompressionOpt(0)`. -/
def NoCompression : CompressionOpt := 0

/-- Go `SnappyCompression = CompressionOpt(1)`. -/
def SnappyCompression : CompressionOpt := 1

structure ReadOptions where
  Opt : Handle
deriving DecidableEq, Repr

structure WriteOptions where
  Opt : Handle
deriving DecidableEq, Repr

/-- Go `func NewOptions() *Options`. -/
def NewOptions {σ : Type} (N : Native σ) (w : World σ) : Options × World σ :=
  let opt := call N ⟨"rocksdb_options_create", []⟩ w
  (Options.mk opt.1.ptr false, opt.2)

/-- Go `func NewReadOptions() *ReadOptions`. -/
def NewReadOptions {σ : Type} (N : Native σ) (w : World σ) : ReadOptions × World σ :=
  let opt := call N ⟨"rocksdb_readoptions_create", []⟩ w
  (ReadOptions.mk opt.1.ptr, opt.2)

/-- Go `func NewWriteOptions() *WriteOptions`. -/
def NewWriteOptions {σ : Type} (N : Native σ) (w : World σ) : WriteOptions × World σ :=
  let opt := call N ⟨"rocksdb_writeoptions_create", []⟩ w
  (WriteOptions.mk opt.1.ptr, opt.2)

/-- Go `func (o *Options) Close()`. -/
def Options.Close {σ : Type} (N : Native σ) (o : Options) (w : World σ) : World σ :=
  (call N ⟨"rocksdb_options_destroy", [.ptr o.Opt]⟩ w).2

/-- Go `func (o *Options) SetLogLevel(n int)`. -/
def Options.SetLogLevel {σ : Type} (N : Native σ) (o : Options) (n : Int) (w : World σ) :
    World σ :=
  (call N ⟨"rocksdb_options_set_info_log_level", [.ptr o.Opt, .int (C.int n)]⟩ w).2

/-- Go `func (o *Options) SetLogDir(dir string)`. -/
def Options.SetLogDir {σ : Type} (N : Native σ) (o : Options) (dir : String) (w : World σ) :
    World σ :=
  (call N ⟨"rocksdb_options_set_db_log_dir", [.ptr o.Opt, .str (C.CString dir)]⟩ w).2

/-- Go `func (o *Options) SetWalDir(dir string)`. -/
def Options.SetWalDir {σ : Type} (N : Native σ) (o : Options) (dir : String) (w : World σ) :
    World σ :=
  (call N ⟨"rocksdb_options_set_wal_dir", [.ptr o.Opt, .str (C.CString dir)]⟩ w).2

/-- Go `func (o *Options) SetStatsDumpPeriod(secs uint)`. -/
def Options.SetStatsDumpPeriod {σ : Type} (N : Native σ) (o : Options) (secs : Nat)
    (w : World σ) : World σ :=
  (call N ⟨"rocksdb_options_set_stats_dump_period_sec", [.ptr o.Opt, .int (C.uint secs)]⟩ w).2

/-- Go `func (o *Options) SetTargetFileSizeBase(n uint64)`. -/
def Options.SetTargetFileSizeBase {σ : Type} (N : Native σ) (o : Options) (n : Nat)
    (w : World σ) : World σ :=
  (call N ⟨"rocksdb_options_set_target_file_size_base", [.ptr o.Opt, .int (C.uint64_t n)]⟩ w).2

/-- Go `func (o *Options) SetTargetFileSizeMultiplier(n int)`. -/
def Options.SetTargetFileSizeMultiplier {σ : Type} (N : Native σ) (o : Options) (n : Int)
    (w : World σ) : World σ :=
  (call N ⟨"rocksdb_options_set_target_file_size_multiplier", [.ptr o.Opt, .int (C.int n)]⟩ w).2

/-- Go `func (o *Options) SetBytesPerSync(n uint64)`. -/
def Options.SetBytesPerSync {σ : Type} (N : Native σ) (o : Options) (n : Nat) (w : World σ) :
    World σ :=
  (call N ⟨"rocksdb_options_set_bytes_per_sync", [.ptr o.Opt, .int (C.uint64_t n)]⟩ w).2

/-- Go `func (o *Options) SetNumLevels(n int)`. -/
def Options.SetNumLevels {σ : Type} (N : Native σ) (o : Options) (n : Int) (w : World σ) :
    World σ :=
  (call N ⟨"rocksdb_options_set_num_levels", [.ptr o.Opt, .int (C.int n)]⟩ w).2

/-- Go `func (o *Options) SetLevel0FileNumCompactionTrigger(n int)`. -/
def Options.SetLevel0FileNumCompactionTrigger {σ : Type} (N : Native σ) (o : Options) (n : Int)
    (w : World σ) : World σ :=
  (call N ⟨"rocksdb_options_set_level0_file_num_compaction_trigger",
    [.ptr o.Opt, .int (C.int n)]⟩ w).2

/-- Go `func (o *Options) SetMaxBackgroundCompactions(n int)`. -/
def Options.SetMaxBackgroundCompactions {σ : Type} (N : Native σ) (o : Options) (n : Int)
    (w : World σ) : World σ :=
  (call N ⟨"rocksdb_options_set_max_background_compactions", [.ptr o.Opt, .int (C.int n)]⟩ w).2

/-- Go `func (o *Options) SetMaxBackgroundFlushes(n int)`. -/
def Options.SetMaxBackgroundFlushes {σ : Type} (N : Native σ) (o : Options) (n : Int)
    (w : World σ) : World σ :=
  (call N ⟨"rocksdb_options_set_max_background_flushes", [.ptr o.Opt, .int (C.int n)]⟩ w).2

/-- Go `func (o *Options) SetAllowMMapReads(b bool)`. -/
def Options.SetAllowMMapReads {σ : Type} (boolToUchar : Bool → Int) (N : Native σ) (o : Options)
    (b : Bool) (w : World σ) : World σ :=
  (call N ⟨"rocksdb_options_set_allow_mmap_reads", [.ptr o.Opt, .int (boolToUchar b)]⟩ w).2

/-- Go `func (o *Options) SetAllowMMapWrites(b bool)`. -/
def Options.SetAllowMMapWrites {σ : Type} (boolToUchar : Bool → Int) (N : Native σ) (o : Options)
    (b : Bool) (w : World σ) : World σ :=
  (call N ⟨"rocksdb_options_set_allow_mmap_writes", [.ptr o.Opt, .int (boolToUchar b)]⟩ w).2

/-- Go `func (o *Options) SetAllowOSBuffer(b bool)`. -/
def Options.SetAllowOSBuffer {σ : Type} (boolToUchar : Bool → Int) (N : Native σ) (o : Options)
    (b : Bool) (w : World σ) : World σ :=
  (call N ⟨"rocksdb_options_set_allow_os_buffer", [.ptr o.Opt, .int (boolToUchar b)]⟩ w).2

/-- Go `func (o *Options) SetMaxWriteBufferNumber(n int)`. -/
def Options.SetMaxWriteBufferNumber {σ : Type} (N : Native σ) (o : Options) (n : Int)
    (w : World σ) : World σ :=
  (call N ⟨"rocksdb_options_set_max_write_buffer_number", [.ptr o.Opt, .int (C.int n)]⟩ w).2

/-- Go `func (o *Options) SetMinWriteBufferNumberToMerge(n int)`. -/
def Options.SetMinWriteBufferNumberToMerge {σ : Type} (N : Native σ) (o : Options) (n : Int)
    (w : World σ) : World σ :=
  (call N ⟨"rocksdb_options_set_min_write_buffer_number_to_merge",
    [.ptr o.Opt, .int (C.int n)]⟩ w).2

/-- Go `func (o *Options) SetReadOnly(b bool)`: the assignment `o.readOnly = b`. -/
def Options.SetReadOnly (o : Options) (b : Bool) : Options :=
  Options.mk o.Opt b

/-- Go `func (o *Options) SetDisableDataSync(b bool)`. -/
def Options.SetDisableDataSync {σ : Type} (boolToUchar : Bool → Int) (N : Native σ) (o : Options)
    (b : Bool) (w : World σ) : World σ :=
  (call N ⟨"rocksdb_options_set_disable_data_sync",
    [.ptr o.Opt, .int (C.int (boolToUchar b))]⟩ w).2

/-- Go `func (o *Options) SetComparator(cmp *C.rocksdb_comparator_t)`. -/
def Options.SetComparator {σ : Type} (N : Native σ) (o : Options) (cmp : Handle) (w : World σ) :
    World σ :=
  (call N ⟨"rocksdb_options_set_comparator", [.ptr o.Opt, .ptr cmp]⟩ w).2

/-- Go `func (o *Options) SetErrorIfExists(error_if_exists bool)`. -/
def Options.SetErrorIfExists {σ : Type} (boolToUchar : Bool → Int) (N : Native σ) (o : Options)
    (error_if_exists : Bool) (w : World σ) : World σ :=
  let eie := boolToUchar error_if_exists
  (call N ⟨"rocksdb_options_set_error_if_exists", [.ptr o.Opt, .int eie]⟩ w).2

/-- Go `func (o *Options) SetCache(cache *Cache)`; the native call is commented
out in the source. -/
def Options.SetCache {σ : Type} (_o : Options) (_cache : Option Cache) (w : World σ) : World σ :=
  logPrintln "Warning: SetCache not currently implemented" w

/-- Go `func (o *Options) SetEnv(env *Env)`. -/
def Options.SetEnv {σ : Type} (N : Native σ) (o : Options) (env : Env) (w : World σ) : World σ :=
  (call N ⟨"rocksdb_options_set_env", [.ptr o.Opt, .ptr env.Env]⟩ w).2

/-- Go `func (e *Env) SetBackgroundThreads(n int)`. -/
def Env.SetBackgroundThreads {σ : Type} (N : Native σ) (e : Rocksdb.Env) (n : Int) (w : World σ) :
    World σ :=
  (call N ⟨"rocksdb_env_set_background_threads", [.ptr e.Env, .int (C.int n)]⟩ w).2

/-- Go `func (e *Env) SetHighPriorityBackgroundThreads(n int)`. -/
def Env.SetHighPriorityBackgroundThreads {σ : Type} (N : Native σ) (e : Rocksdb.Env) (n : Int)
    (w : World σ) : World σ :=
  (call N ⟨"rocksdb_env_set_high_priority_background_threads",
    [.ptr e.Env, .int (C.int n)]⟩ w).2

/-- Go `func (o *Options) SetInfoLog(log *C.rocksdb_logger_t)`. -/
def Options.SetInfoLog {σ : Type} (N : Native σ) (o : Options) (log : Handle) (w : World σ) :
    World σ :=
  (call N ⟨"rocksdb_options_set_info_log", [.ptr o.Opt, .ptr log]⟩ w).2

/-- Go `func (o *Options) SetWriteBufferSize(s int)`. -/
def Options.SetWriteBufferSize {σ : Type} (N : Native σ) (o : Options) (s : Int) (w : World σ) :
    World σ :=
  (call N ⟨"rocksdb_options_set_write_buffer_size", [.ptr o.Opt, .int (C.size_t s)]⟩ w).2

/-- Go `func (o *Options) SetParanoidChecks(pc bool)`. -/
def Options.SetParanoidChecks {σ : Type} (boolToUchar : Bool → Int) (N : Native σ) (o : Options)
    (pc : Bool) (w : World σ) : World σ :=
  (call N ⟨"rocksdb_options_set_paranoid_checks", [.ptr o.Opt, .int (boolToUchar pc)]⟩ w).2

/-- Go `func (o *Options) SetMaxOpenFiles(n int)`. -/
def Options.SetMaxOpenFiles {σ : Type} (N : Native σ) (o : Options) (n : Int) (w : World σ) :
    World σ :=
  (call N ⟨"rocksdb_options_set_max_open_files", [.ptr o.Opt, .int (C.int n)]⟩ w).2

/-- Go `func (o *Options) SetBlockSize(s int)`; the native call is commented out
in the source. -/
def Options.SetBlockSize {σ : Type} (_o : Options) (_s : Int) (w : World σ) : World σ :=
  logPrintln "Warning: SetBlockSize not currently implemented" w

/-- Go `func (o *Options) SetBlockRestartInterval(n int)`; the native call is
commented out in the source. -/
def Options.SetBlockRestartInterval {σ : Type} (_o : Options) (_n : Int) (w : World σ) :
    World σ :=
  logPrintln "Warning: SetBlockRestartInterval not currently implemented" w

/-- Go `func (o *Options) SetCompression(t CompressionOpt)`. -/
def Options.SetCompression {σ : Type} (N : Native σ) (o : Options) (t : CompressionOpt)
    (w : World σ) : World σ :=
  (call N ⟨"rocksdb_options_set_compression", [.ptr o.Opt, .int (C.int t)]⟩ w).2

/-- Go `func (o *Options) SetCreateIfMissing(b bool)`. -/
def Options.SetCreateIfMissing {σ : Type} (boolToUchar : Bool → Int) (N : Native σ) (o : Options)
    (b : Bool) (w : World σ) : World σ :=
  (call N ⟨"rocksdb_options_set_create_if_missing", [.ptr o.Opt, .int (boolToUchar b)]⟩ w).2

/-- Go `func (o *Options) IncreaseParallelism(n int)`. -/
def Options.IncreaseParallelism {σ : Type} (N : Native σ) (o : Options) (n : Int) (w : World σ) :
    World σ :=
  (call N ⟨"rocksdb_options_increase_parallelism", [.ptr o.Opt, .int (C.int n)]⟩ w).2

/-- Go `func (o *Options) SetFilterPolicy(fp *FilterPolicy)`; the native call is
commented out in the source. -/
def Options.SetFilterPolicy {σ : Type} (_o : Options) (_fp : Option FilterPolicy) (w : World σ) :
    World σ :=
  logPrintln "Warning: SetFilterPolicy not currently implemented" w

/-- Go `func (ro *ReadOptions) Close()`. -/
def ReadOptions.Close {σ : Type} (N : Native σ) (ro : ReadOptions) (w : World σ) : World σ :=
  (call N ⟨"rocksdb_readoptions_destroy", [.ptr ro.Opt]⟩ w).2

/-- Go `func (ro *ReadOptions) SetVerifyChecksums(b bool)`. -/
def ReadOptions.SetVerifyChecksums {σ : Type} (boolToUchar : Bool → Int) (N : Native σ)
    (ro : ReadOptions) (b : Bool) (w : World σ) : World σ :=
  (call N ⟨"rocksdb_readoptions_set_verify_checksums", [.ptr ro.Opt, .int (boolToUchar b)]⟩ w).2

/-- Go `func (ro *ReadOptions) SetFillCache(b bool)`. -/
def ReadOptions.SetFillCache {σ : Type} (boolToUchar : Bool → Int) (N : Native σ)
    (ro : ReadOptions) (b : Bool) (w : World σ) : World σ :=
  (call N ⟨"rocksdb_readoptions_set_fill_cache", [.ptr ro.Opt, .int (boolToUchar b)]⟩ w).2

/-- Go `func (ro *ReadOptions) SetSnapshot(snap *Snapshot)`; a nil `snap` is
`none` and is passed on as the NULL pointer. -/
def ReadOptions.SetSnapshot {σ : Type} (N : Native σ) (ro : ReadOptions) (snap : Option Snapshot)
    (w : World σ) : World σ :=
  let s : Handle := match snap with
    | some sn => sn.snap
    | none => 0
  (call N ⟨"rocksdb_readoptions_set_snapshot", [.ptr ro.Opt, .ptr s]⟩ w).2

/-- Go `func (wo *WriteOptions) Close()`. -/
def WriteOptions.Close {σ : Type} (N : Native σ) (wo : WriteOptions) (w : World σ) : World σ :=
  (call N ⟨"rocksdb_writeoptions_destroy", [.ptr wo.Opt]⟩ w).2

/-- Go `func (wo *WriteOptions) SetSync(b bool)`. -/
def WriteOptions.SetSync {σ : Type} (boolToUchar : Bool → Int) (N : Native σ) (wo : WriteOptions)
    (b : Bool) (w : World σ) : World σ :=
  (call N ⟨"rocksdb_writeoptions_set_sync", [.ptr wo.Opt, .int (boolToUchar b)]⟩ w).2

/-- Go `func (wo *WriteOptions) DisableWAL(b bool)`. -/
def WriteOptions.DisableWAL {σ : Type} (N : Native σ) (wo : WriteOptions) (b : Bool)
    (w : World σ) : World σ :=
  let n : Int := if b then 1 else 0
  (call N ⟨"rocksdb_writeoptions_disable_WAL", [.ptr wo.Opt, .int (C.int n)]⟩ w).2

/-! ## Calls of the setters, as data

To speak about every setter and every argument at once, a call of a
configuring method is a value: the method together with its argument.  The
functions `run` dispatch such a call to the embedding of the method. -/

/-- A call of a configuring method of `Options`, in the order of options.go. -/
inductive OptionsSetter where
  | SetLogLevel (n : Int)
  | SetLogDir (dir : String)
  | SetWalDir (dir : String)
  | SetStatsDumpPeriod (secs : Nat)
  | SetTargetFileSizeBase (n : Nat)
  | SetTargetFileSizeMultiplier (n : Int)
  | SetBytesPerSync (n : Nat)
  | SetNumLevels (n : Int)
  | SetLevel0FileNumCompactionTrigger (n : Int)
  | SetMaxBackgroundCompactions (n : Int)
  | SetMaxBackgroundFlushes (n : Int)
  | SetAllowMMapReads (b : Bool)
  | SetAllowMMapWrites (b : Bool)
  | SetAllowOSBuffer (b : Bool)
  | SetMaxWriteBufferNumber (n : Int)
  | SetMinWriteBufferNumberToMerge (n : Int)
  | SetReadOnly (b : Bool)
  | SetDisableDataSync (b : Bool)
  | SetComparator (cmp : Handle)
  | SetErrorIfExists (error_if_exists : Bool)
  | SetCache (cache : Option Cache)
  | SetEnv (env : Env)
  | SetInfoLog (log : Handle)
  | SetWriteBufferSize (s : Int)
  | SetParanoidChecks (pc : Bool)
  | SetMaxOpenFiles (n : Int)
  | SetBlockSize (s : Int)
  | SetBlockRestartInterval (n : Int)
  | SetCompression (t : CompressionOpt)
  | SetCreateIfMissing (b : Bool)
  | IncreaseParallelism (n : Int)
  | SetFilterPolicy (fp : Option FilterPolicy)
deriving DecidableEq, Repr

/-- A call of a setter of `ReadOptions`. -/
inductive ReadOptionsSetter where
  | SetVerifyChecksums (b : Bool)
  | SetFillCache (b : Bool)
  | SetSnapshot (snap : Option Snapshot)
deriving DecidableEq, Repr

/-- A call of a setter of `WriteOptions`. -/
inductive WriteOptionsSetter where
  | SetSync (b : Bool)
  | DisableWAL (b : Bool)
deriving DecidableEq, Repr

/-- Run one setter call on an `Options` object: the object and the world after
the call.  No method has a result value, so the outcome has no error part. -/
def Options.run {σ : Type} (boolToUchar : Bool → Int) (N : Native σ) (o : Options)
    (s : OptionsSetter) (w : World σ) : Options × World σ :=
  match s with
  | .SetLogLevel n => (o, o.SetLogLevel N n w)
  | .SetLogDir dir => (o, o.SetLogDir N dir w)
  | .SetWalDir dir => (o, o.SetWalDir N dir w)
  | .SetStatsDumpPeriod secs => (o, o.SetStatsDumpPeriod N secs w)
  | .SetTargetFileSizeBase n => (o, o.SetTargetFileSizeBase N n w)
  | .SetTargetFileSizeMultiplier n => (o, o.SetTargetFileSizeMultiplier N n w)
  | .SetBytesPerSync n => (o, o.SetBytesPerSync N n w)
  | .SetNumLevels n => (o, o.SetNumLevels N n w)
  | .SetLevel0FileNumCompactionTrigger n => (o, o.SetLevel0FileNumCompactionTrigger N n w)
  | .SetMaxBackgroundCompactions n => (o, o.SetMaxBackgroundCompactions N n w)
  | .SetMaxBackgroundFlushes n => (o, o.SetMaxBackgroundFlushes N n w)
  | .SetAllowMMapReads b => (o, o.SetAllowMMapReads boolToUchar N b w)
  | .SetAllowMMapWrites b => (o, o.SetAllowMMapWrites boolToUchar N b w)
  | .SetAllowOSBuffer b => (o, o.SetAllowOSBuffer boolToUchar N b w)
  | .SetMaxWriteBufferNumber n => (o, o.SetMaxWriteBufferNumber N n w)
  | .SetMinWriteBufferNumberToMerge n => (o, o.SetMinWriteBufferNumberToMerge N n w)
  | .SetReadOnly b => (o.SetReadOnly b, w)
  | .SetDisableDataSync b => (o, o.SetDisableDataSync boolToUchar N b w)
  | .SetComparator cmp => (o, o.SetComparator N cmp w)
  | .SetErrorIfExists b => (o, o.SetErrorIfExists boolToUchar N b w)
  | .SetCache cache => (o, o.SetCache cache w)
  | .SetEnv env => (o, o.SetEnv N env w)
  | .SetInfoLog log => (o, o.SetInfoLog N log w)
  | .SetWriteBufferSize s => (o, o.SetWriteBufferSize N s w)
  | .SetParanoidChecks pc => (o, o.SetParanoidChecks boolToUchar N pc w)
  | .SetMaxOpenFiles n => (o, o.SetMaxOpenFiles N n w)
  | .SetBlockSize s => (o, o.SetBlockSize s w)
  | .SetBlockRestartInterval n => (o, o.SetBlockRestartInterval n w)
  | .SetCompression t => (o, o.SetCompression N t w)
  | .SetCreateIfMissing b => (o, o.SetCreateIfMissing boolToUchar N b w)
  | .IncreaseParallelism n => (o, o.IncreaseParallelism N n w)
  | .SetFilterPolicy fp => (o, o.SetFilterPolicy fp w)

/-- Run one setter call on a `ReadOptions` object. -/
def ReadOptions.run {σ : Type} (boolToUchar : Bool → Int) (N : Native σ) (ro : ReadOptions)
    (s : ReadOptionsSetter) (w : World σ) : ReadOptions × World σ :=
  match s with
  | .SetVerifyChecksums b => (ro, ro.SetVerifyChecksums boolToUchar N b w)
  | .SetFillCache b => (ro, ro.SetFillCache boolToUchar N b w)
  | .SetSnapshot snap => (ro, ro.SetSnapshot N snap w)

/-- Run one setter call on a `WriteOptions` object. -/
def WriteOptions.run {σ : Type} (boolToUchar : Bool → Int) (N : Native σ) (wo : WriteOptions)
    (s : WriteOptionsSetter) (w : World σ) : WriteOptions × World σ :=
  match s with
  | .SetSync b => (wo, wo.SetSync boolToUchar N b w)
  | .DisableWAL b => (wo, wo.DisableWAL N b w)

/-! ## A sample library and a sample process, for concrete evaluation -/

/-- A sample library: its state counts the calls it has answered; every call
returns the pointer 7 and the number 40, except that the count of a backup
info is 2; a call that is handed an empty string (an empty path) reports an
error, every other call leaves the error string unset. -/
def sampleNative : Native Nat where
  exec c s :=
    (NativeRet.mk 7
      (if c.name = "rocksdb_backup_engine_info_count" then 2 else 40)
      (if CVal.str "" ∈ c.args then some "Invalid argument: empty path" else none),
     s + 1)

/-- A second sample library, which differs from the first in the numbers it
returns: a backup info still has count 2, and every other number is 2^64 - 1,
the largest `uint64_t` (a size at the top of its C type). -/
def sampleLargeNative : Native Nat where
  exec c s :=
    (NativeRet.mk 7
      (if c.name = "rocksdb_backup_engine_info_count" then 2 else 18446744073709551615)
      none,
     s + 1)

/-- A freshly started process linked with a sample library. -/
def sampleWorld : World Nat := World.mk 0 [] []

/-- A sample `boolToUchar`: the usual 1 for true and 0 for false. -/
def sampleBoolToUchar (b : Bool) : Int := if b then 1 else 0

/-! ## Facts about the integer conversions -/

theorem goInt_of_range (x : Int) (h1 : -9223372036854775808 ≤ x) (h2 : x < 9223372036854775808) :
    int x = x := by
  unfold int
  omega

theorem cInt_of_range (x : Int) (h1 : -2147483648 ≤ x) (h2 : x < 2147483648) :
    C.int x = x := by
  unfold C.int
  omega

theorem cInt_bounds (x : Int) : -2147483648 ≤ C.int x ∧ C.int x < 2147483648 := by
  unfold C.int
  omega

theorem cInt_add_two_pow_32 (x : Int) : C.int (x + 4294967296) = C.int x := by
  unfold C.int
  omega

theorem cInt_goInt (x : Int) : C.int (Rocksdb.int x) = C.int x := by
  unfold C.int Rocksdb.int
  omega

theorem int_C_int (x : Int) : Rocksdb.int (C.int x) = C.int x := by
  have h := cInt_bounds x
  exact goInt_of_range _ (by omega) (by omega)

theorem int_C_uint32_t (x : Int) : Rocksdb.int (C.uint32_t x) = C.uint32_t x := by
  apply goInt_of_range <;> unfold C.uint32_t <;> omega

theorem int_C_int64_t (x : Int) : Rocksdb.int (C.int64_t x) = C.int64_t x := by
  apply goInt_of_range <;> unfold C.int64_t <;> omega

/-! ## Error results of the backup engine -/

/-- C1: `BackupEngineOpen` makes one native open call on the handle of the
options with the path; it fails exactly when that call stores an error string,
and then returns a nil engine with the `DatabaseError` made of exactly that
string; otherwise it returns a nil error and the engine whose `Engine` field
is the pointer the native call returned. -/
theorem BackupEngineOpen_error_iff_native {σ : Type} (N : Native σ) (o : Options) (path : String)
    (w : World σ) :
    (BackupEngineOpen N o path w).2
        = (call N ⟨"rocksdb_backup_engine_open", [.ptr o.Opt, .str path]⟩ w).2
    ∧ ((BackupEngineOpen N o path w).1.2 ≠ none
        ↔ (call N ⟨"rocksdb_backup_engine_open", [.ptr o.Opt, .str path]⟩ w).1.err ≠ none)
    ∧ (∀ e : String,
        (call N ⟨"rocksdb_backup_engine_open", [.ptr o.Opt, .str path]⟩ w).1.err = some e →
          (BackupEngineOpen N o path w).1 = (none, some (DatabaseError.mk e)))
    ∧ ((call N ⟨"rocksdb_backup_engine_open", [.ptr o.Opt, .str path]⟩ w).1.err = none →
          (BackupEngineOpen N o path w).1
            = (some (BackupEngine.mk
                (call N ⟨"rocksdb_backup_engine_open", [.ptr o.Opt, .str path]⟩ w).1.ptr),
               none)) := by
  unfold BackupEngineOpen C.CString C.GoString
  cases h : (call N ⟨"rocksdb_backup_engine_open", [.ptr o.Opt, .str path]⟩ w).1.err <;>
    simp [h]

/-- Witness of C1 on the sample library: opening on the empty path fails with
the library's own message, opening on `/backups` returns the engine at the
pointer the library answered. -/
theorem BackupEngineOpen_error_iff_native_witness :
    (BackupEngineOpen sampleNative (Options.mk 3 false) "" sampleWorld).1
        = (none, some (DatabaseError.mk "Invalid argument: empty path"))
    ∧ (BackupEngineOpen sampleNative (Options.mk 3 false) "/backups" sampleWorld).1
        = (some (BackupEngine.mk 7), none) :=
  ⟨(BackupEngineOpen_error_iff_native sampleNative (Options.mk 3 false) ""
      sampleWorld).2.2.1 "Invalid argument: empty path" (by rfl),
   (BackupEngineOpen_error_iff_native sampleNative (Options.mk 3 false) "/backups"
      sampleWorld).2.2.2 (by rfl)⟩

/-- C2: `CreateNewBackup` and `RestoreDbFromLatestBackup` each make one native
call; the returned error is nil exactly when that call left the error string
unset, and when the call stores an error string the returned error is the
`DatabaseError` made of exactly that string. -/
theorem backup_and_restore_error_iff_native {σ : Type} (N : Native σ) (be : BackupEngine)
    (db : DB) (dbDir walDir : String) (options : RestoreOptions) (w : World σ) :
    ((be.CreateNewBackup N db w).2
        = (call N ⟨"rocksdb_backup_engine_create_new_backup",
            [.ptr be.Engine, .ptr db.Ldb]⟩ w).2
      ∧ ((be.CreateNewBackup N db w).1 = none
          ↔ (call N ⟨"rocksdb_backup_engine_create_new_backup",
              [.ptr be.Engine, .ptr db.Ldb]⟩ w).1.err = none)
      ∧ (∀ e : String,
          (call N ⟨"rocksdb_backup_engine_create_new_backup",
              [.ptr be.Engine, .ptr db.Ldb]⟩ w).1.err = some e →
            (be.CreateNewBackup N db w).1 = some (DatabaseError.mk e)))
    ∧ ((be.RestoreDbFromLatestBackup N dbDir walDir options w).2
        = (call N ⟨"rocksdb_backup_engine_restore_db_from_latest_backup",
            [.ptr be.Engine, .str dbDir, .str walDir, .ptr options.Opt]⟩ w).2
      ∧ ((be.RestoreDbFromLatestBackup N dbDir walDir options w).1 = none
          ↔ (call N ⟨"rocksdb_backup_engine_restore_db_from_latest_backup",
              [.ptr be.Engine, .str dbDir, .str walDir, .ptr options.Opt]⟩ w).1.err = none)
      ∧ (∀ e : String,
          (call N ⟨"rocksdb_backup_engine_restore_db_from_latest_backup",
              [.ptr be.Engine, .str dbDir, .str walDir, .ptr options.Opt]⟩ w).1.err = some e →
            (be.RestoreDbFromLatestBackup N dbDir walDir options w).1
              = some (DatabaseError.mk e))) := by
  constructor
  · unfold BackupEngine.CreateNewBackup C.GoString
    cases h : (call N ⟨"rocksdb_backup_engine_create_new_backup",
        [.ptr be.Engine, .ptr db.Ldb]⟩ w).1.err <;> simp [h]
  · unfold BackupEngine.RestoreDbFromLatestBackup C.CString C.GoString
    cases h : (call N ⟨"rocksdb_backup_engine_restore_db_from_latest_backup",
        [.ptr be.Engine, .str dbDir, .str walDir, .ptr options.Opt]⟩ w).1.err <;> simp [h]

/-- Witness of C2 on the sample library: a backup succeeds with a nil error, a
restore into the empty path fails with the library's own message. -/
theorem backup_and_restore_error_iff_native_witness :
    ((BackupEngine.mk 7).CreateNewBackup sampleNative (DB.mk 5) sampleWorld).1 = none
    ∧ ((BackupEngine.mk 7).RestoreDbFromLatestBackup sampleNative "" "/wal"
          (RestoreOptions.mk 9) sampleWorld).1
        = some (DatabaseError.mk "Invalid argument: empty path") :=
  ⟨(backup_and_restore_error_iff_native sampleNative (BackupEngine.mk 7) (DB.mk 5) "" "/wal"
      (RestoreOptions.mk 9) sampleWorld).1.2.1.mpr (by rfl),
   (backup_and_restore_error_iff_native sampleNative (BackupEngine.mk 7) (DB.mk 5) "" "/wal"
      (RestoreOptions.mk 9) sampleWorld).2.2.2 "Invalid argument: empty path" (by rfl)⟩

/-! ## Accessors of a backup info -/

/-- C3, as stated, fails for `Size`: on the second sample library the snapshot
at pointer 7 has count 2, so the index 0 is in range; the library answers the
size 2^64 - 1 for it, and `Size(0)` returns -1, which is not that value. -/
theorem size_in_range_not_native_value :
    (0 : Int) ≤ 0
    ∧ (0 : Int) < ((BackupEngineInfo.mk 7).Count sampleLargeNative sampleWorld).1
    ∧ (sampleLargeNative.exec ⟨"rocksdb_backup_engine_info_size", [.ptr 7, .int 0]⟩
        sampleWorld.native).1.num = 18446744073709551615
    ∧ (BackupEngineInfo.mk 7).Size sampleLargeNative 0 sampleWorld
        = (-1, World.mk 1 [⟨"rocksdb_backup_engine_info_size", [.ptr 7, .int 0]⟩] []) :=
  ⟨by decide, by decide, by rfl, by rfl⟩

/-- C3, amended.  For every snapshot, empty or not, `Count()` makes one native
count query on the `Info` handle of the snapshot and returns the count the
library answers.  For an index `i` with `0 ≤ i < Count()`, each accessor makes
one native query on the `Info` handle of the same snapshot with the index `i`
itself; `BackupId`, `Timestamp` and `NumberFiles` return the value the query
answered, and `Size` returns that value converted to the 64-bit Go `int`: the
value itself when it is below 2^63, and the value minus 2^64 from there on.
The value a query answered is the returned number at the C return type of the
function, which is the number itself whenever it is a value of that type. -/
theorem accessors_in_range_query_own_index {σ : Type} (N : Native σ) (bei : BackupEngineInfo)
    (i : Int) (w v : World σ) :
    bei.Count N w
        = (C.int (call N ⟨"rocksdb_backup_engine_info_count", [.ptr bei.Info]⟩ w).1.num,
           (call N ⟨"rocksdb_backup_engine_info_count", [.ptr bei.Info]⟩ w).2)
    ∧ (0 ≤ i → i < (bei.Count N w).1 →
        bei.BackupId N i v
            = (C.uint32_t (call N ⟨"rocksdb_backup_engine_info_backup_id", [.ptr bei.Info, .int i]⟩ v).1.num, (call N ⟨"rocksdb_backup_engine_info_backup_id", [.ptr bei.Info, .int i]⟩ v).2)
        ∧ bei.Timestamp N i v
            = (C.int64_t (call N ⟨"rocksdb_backup_engine_info_timestamp", [.ptr bei.Info, .int i]⟩ v).1.num, (call N ⟨"rocksdb_backup_engine_info_timestamp", [.ptr bei.Info, .int i]⟩ v).2)
        ∧ bei.NumberFiles N i v
            = (C.uint32_t (call N ⟨"rocksdb_backup_engine_info_number_files", [.ptr bei.Info, .int i]⟩ v).1.num, (call N ⟨"rocksdb_backup_engine_info_number_files", [.ptr bei.Info, .int i]⟩ v).2)
        ∧ (bei.Size N i v).2 = (call N ⟨"rocksdb_backup_engine_info_size", [.ptr bei.Info, .int i]⟩ v).2
        ∧ (C.uint64_t (call N ⟨"rocksdb_backup_engine_info_size", [.ptr bei.Info, .int i]⟩ v).1.num < 9223372036854775808 →
            (bei.Size N i v).1 = C.uint64_t (call N ⟨"rocksdb_backup_engine_info_size", [.ptr bei.Info, .int i]⟩ v).1.num)
        ∧ (9223372036854775808 ≤ C.uint64_t (call N ⟨"rocksdb_backup_engine_info_size", [.ptr bei.Info, .int i]⟩ v).1.num →
            (bei.Size N i v).1
              = C.uint64_t (call N ⟨"rocksdb_backup_engine_info_size", [.ptr bei.Info, .int i]⟩ v).1.num - 18446744073709551616))
    ∧ ((∀ x : Int, -2147483648 ≤ x → x < 2147483648 → C.int x = x)
      ∧ (∀ x : Int, 0 ≤ x → x < 4294967296 → C.uint32_t x = x)
      ∧ (∀ x : Int, -9223372036854775808 ≤ x → x < 9223372036854775808 → C.int64_t x = x)
      ∧ (∀ x : Int, 0 ≤ x → x < 18446744073709551616 → C.uint64_t x = x)) := by
  refine ⟨?_, ?_, ⟨?_, ?_, ?_, ?_⟩⟩
  · unfold BackupEngineInfo.Count
    simp only [int_C_int]
  · intro h0 hi
    have hc : (bei.Count N w).1 < 2147483648 := by
      unfold BackupEngineInfo.Count
      simp only [int_C_int]
      exact (cInt_bounds _).2
    have hidx : C.int i = i := cInt_of_range i (by omega) (by omega)
    refine ⟨?_, ?_, ?_, ?_, ?_, ?_⟩
    · unfold BackupEngineInfo.BackupId
      simp only [hidx, int_C_uint32_t]
    · unfold BackupEngineInfo.Timestamp
      simp only [hidx, int_C_int64_t]
    · unfold BackupEngineInfo.NumberFiles
      simp only [hidx, int_C_uint32_t]
    · unfold BackupEngineInfo.Size
      simp only [hidx]
    · intro hlt
      unfold BackupEngineInfo.Size
      simp only [hidx]
      apply goInt_of_range
      · unfold C.uint64_t
        omega
      · exact hlt
    · intro hge
      unfold BackupEngineInfo.Size
      simp only [hidx]
      have hub : C.uint64_t (call N ⟨"rocksdb_backup_engine_info_size", [.ptr bei.Info, .int i]⟩ v).1.num < 18446744073709551616 := by
        unfold C.uint64_t
        omega
      unfold Rocksdb.int
      omega
  · intro x h1 h2
    exact cInt_of_range x h1 h2
  · intro x h1 h2
    unfold C.uint32_t
    omega
  · intro x h1 h2
    unfold C.int64_t
    omega
  · intro x h1 h2
    unfold C.uint64_t
    omega

/-- Witness of the amended C3 on the sample library: the snapshot at pointer 7
has count 2, and `BackupId(1)` queries pointer 7 at index 1 and returns the
answer 40. -/
theorem accessors_in_range_query_own_index_witness :
    (0 : Int) ≤ 1
    ∧ (1 : Int) < ((BackupEngineInfo.mk 7).Count sampleNative sampleWorld).1
    ∧ (BackupEngineInfo.mk 7).BackupId sampleNative 1 sampleWorld
        = (40, World.mk 1 [⟨"rocksdb_backup_engine_info_backup_id", [.ptr 7, .int 1]⟩] []) :=
  ⟨by decide, by decide,
    ((accessors_in_range_query_own_index sampleNative (BackupEngineInfo.mk 7) 1 sampleWorld
      sampleWorld).2.1 (by decide) (by decide)).1.trans (by rfl)⟩

/-- C4, as stated, fails: on the sample library the snapshot at pointer 7 has
count 2, and the accessors called with the indices -1 and 2 are not rejected;
each call reaches the library with that index and returns its answer 40. -/
theorem accessors_out_of_range_reach_native :
    ((BackupEngineInfo.mk 7).Count sampleNative sampleWorld).1 = 2
    ∧ (BackupEngineInfo.mk 7).BackupId sampleNative (-1) sampleWorld
        = (40, World.mk 1 [⟨"rocksdb_backup_engine_info_backup_id", [.ptr 7, .int (-1)]⟩] [])
    ∧ (BackupEngineInfo.mk 7).Timestamp sampleNative 2 sampleWorld
        = (40, World.mk 1 [⟨"rocksdb_backup_engine_info_timestamp", [.ptr 7, .int 2]⟩] [])
    ∧ (BackupEngineInfo.mk 7).Size sampleNative (-1) sampleWorld
        = (40, World.mk 1 [⟨"rocksdb_backup_engine_info_size", [.ptr 7, .int (-1)]⟩] [])
    ∧ (BackupEngineInfo.mk 7).NumberFiles sampleNative 2 sampleWorld
        = (40, World.mk 1 [⟨"rocksdb_backup_engine_info_number_files", [.ptr 7, .int 2]⟩] []) :=
  ⟨by decide, by rfl, by rfl, by rfl, by rfl⟩

/-- C4, amended: the accessors make no bounds check.  For every index, in
range or not, each accessor appends exactly one native query to the history,
on the `Info` handle of the snapshot and with the index narrowed to C `int`,
and returns the answer of that query converted to Go `int`. -/
theorem accessors_forward_every_index {σ : Type} (N : Native σ) (bei : BackupEngineInfo)
    (i : Int) (w : World σ) :
    ((bei.BackupId N i w).2.calls
        = w.calls ++ [⟨"rocksdb_backup_engine_info_backup_id", [.ptr bei.Info, .int (C.int i)]⟩]
      ∧ (bei.BackupId N i w).1
        = Rocksdb.int (C.uint32_t (N.exec ⟨"rocksdb_backup_engine_info_backup_id",
            [.ptr bei.Info, .int (C.int i)]⟩ w.native).1.num))
    ∧ ((bei.Timestamp N i w).2.calls
        = w.calls ++ [⟨"rocksdb_backup_engine_info_timestamp", [.ptr bei.Info, .int (C.int i)]⟩]
      ∧ (bei.Timestamp N i w).1
        = Rocksdb.int (C.int64_t (N.exec ⟨"rocksdb_backup_engine_info_timestamp",
            [.ptr bei.Info, .int (C.int i)]⟩ w.native).1.num))
    ∧ ((bei.Size N i w).2.calls
        = w.calls ++ [⟨"rocksdb_backup_engine_info_size", [.ptr bei.Info, .int (C.int i)]⟩]
      ∧ (bei.Size N i w).1
        = Rocksdb.int (C.uint64_t (N.exec ⟨"rocksdb_backup_engine_info_size",
            [.ptr bei.Info, .int (C.int i)]⟩ w.native).1.num))
    ∧ ((bei.NumberFiles N i w).2.calls
        = w.calls ++ [⟨"rocksdb_backup_engine_info_number_files",
            [.ptr bei.Info, .int (C.int i)]⟩]
      ∧ (bei.NumberFiles N i w).1
        = Rocksdb.int (C.uint32_t (N.exec ⟨"rocksdb_backup_engine_info_number_files",
            [.ptr bei.Info, .int (C.int i)]⟩ w.native).1.num)) :=
  ⟨⟨rfl, rfl⟩, ⟨rfl, rfl⟩, ⟨rfl, rfl⟩, ⟨rfl, rfl⟩⟩

/-- C5, as stated, fails: on the sample library, after `Destroy()` on the
snapshot at pointer 7 the accessors are not rejected; `Count()` and
`BackupId(0)` reach the library with the released pointer 7 and return its
answers. -/
theorem accessors_after_destroy_reach_native :
    (BackupEngineInfo.mk 7).Destroy sampleNative sampleWorld
        = (BackupEngineInfo.mk 7,
           World.mk 1 [⟨"rocksdb_backup_engine_info_destroy", [.ptr 7]⟩] [])
    ∧ ((BackupEngineInfo.mk 7).Destroy sampleNative sampleWorld).1.Count sampleNative
          ((BackupEngineInfo.mk 7).Destroy sampleNative sampleWorld).2
        = (2, World.mk 2 [⟨"rocksdb_backup_engine_info_destroy", [.ptr 7]⟩,
                          ⟨"rocksdb_backup_engine_info_count", [.ptr 7]⟩] [])
    ∧ ((BackupEngineInfo.mk 7).Destroy sampleNative sampleWorld).1.BackupId sampleNative 0
          ((BackupEngineInfo.mk 7).Destroy sampleNative sampleWorld).2
        = (40, World.mk 2 [⟨"rocksdb_backup_engine_info_destroy", [.ptr 7]⟩,
                           ⟨"rocksdb_backup_engine_info_backup_id", [.ptr 7, .int 0]⟩] []) :=
  ⟨by rfl, by rfl, by rfl⟩

/-- C5, amended: `Destroy()` makes one native destroy call on the `Info` handle
and leaves the Go object as it was, its `Info` field still holding the released
pointer; a later call of `Count`, `BackupId`, `Timestamp`, `Size` or
`NumberFiles` is not rejected: it makes its native query with that same
pointer, right after the destroy call in the history. -/
theorem accessors_after_destroy_use_released_handle {σ : Type} (N : Native σ)
    (bei : BackupEngineInfo) (i : Int) (w : World σ) :
    (bei.Destroy N w).1 = bei
    ∧ (bei.Destroy N w).2 = (call N ⟨"rocksdb_backup_engine_info_destroy", [.ptr bei.Info]⟩ w).2
    ∧ ((bei.Destroy N w).1.Count N (bei.Destroy N w).2).2.calls
        = w.calls ++ [⟨"rocksdb_backup_engine_info_destroy", [.ptr bei.Info]⟩,
                      ⟨"rocksdb_backup_engine_info_count", [.ptr bei.Info]⟩]
    ∧ ((bei.Destroy N w).1.BackupId N i (bei.Destroy N w).2).2.calls
        = w.calls ++ [⟨"rocksdb_backup_engine_info_destroy", [.ptr bei.Info]⟩,
                      ⟨"rocksdb_backup_engine_info_backup_id", [.ptr bei.Info, .int (C.int i)]⟩]
    ∧ ((bei.Destroy N w).1.Timestamp N i (bei.Destroy N w).2).2.calls
        = w.calls ++ [⟨"rocksdb_backup_engine_info_destroy", [.ptr bei.Info]⟩,
                      ⟨"rocksdb_backup_engine_info_timestamp", [.ptr bei.Info, .int (C.int i)]⟩]
    ∧ ((bei.Destroy N w).1.Size N i (bei.Destroy N w).2).2.calls
        = w.calls ++ [⟨"rocksdb_backup_engine_info_destroy", [.ptr bei.Info]⟩,
                      ⟨"rocksdb_backup_engine_info_size", [.ptr bei.Info, .int (C.int i)]⟩]
    ∧ ((bei.Destroy N w).1.NumberFiles N i (bei.Destroy N w).2).2.calls
        = w.calls ++ [⟨"rocksdb_backup_engine_info_destroy", [.ptr bei.Info]⟩,
                      ⟨"rocksdb_backup_engine_info_number_files",
                        [.ptr bei.Info, .int (C.int i)]⟩] := by
  refine ⟨rfl, rfl, ?_, ?_, ?_, ?_, ?_⟩ <;>
    simp [BackupEngineInfo.Destroy, BackupEngineInfo.Count, BackupEngineInfo.BackupId,
      BackupEngineInfo.Timestamp, BackupEngineInfo.Size, BackupEngineInfo.NumberFiles, call]

/-! ## Setters of the option objects -/

/-- C7: `SetCache`, `SetBlockSize`, `SetBlockRestartInterval` and
`SetFilterPolicy` are no-ops on the configuration, for every `Options` value
and every argument: the object comes back with the same `Opt` handle and the
same `readOnly` field, the library is not called (its state and the call
history are as before), there is no error result, and the only effect is one
warning line on the logger. -/
theorem stubbed_setters_only_log {σ : Type} (boolToUchar : Bool → Int) (N : Native σ)
    (o : Options) (cache : Option Cache) (s n : Int) (fp : Option FilterPolicy) (w : World σ) :
    o.run boolToUchar N (.SetCache cache) w
        = (o, World.mk w.native w.calls
            (w.logged ++ ["Warning: SetCache not currently implemented"]))
    ∧ o.run boolToUchar N (.SetBlockSize s) w
        = (o, World.mk w.native w.calls
            (w.logged ++ ["Warning: SetBlockSize not currently implemented"]))
    ∧ o.run boolToUchar N (.SetBlockRestartInterval n) w
        = (o, World.mk w.native w.calls
            (w.logged ++ ["Warning: SetBlockRestartInterval not currently implemented"]))
    ∧ o.run boolToUchar N (.SetFilterPolicy fp) w
        = (o, World.mk w.native w.calls
            (w.logged ++ ["Warning: SetFilterPolicy not currently implemented"])) :=
  ⟨rfl, rfl, rfl, rfl⟩

/-- C8, as stated, fails: on the sample library `SetReadOnly(true)` changes only
the `readOnly` field of the Go object and `SetCache(nil)` only logs a warning;
neither makes a native call, so neither applies its argument to the native
configuration behind the `Opt` handle. -/
theorem setters_without_native_call :
    (Options.mk 7 false).run sampleBoolToUchar sampleNative (.SetReadOnly true) sampleWorld
        = (Options.mk 7 true, sampleWorld)
    ∧ (Options.mk 7 false).run sampleBoolToUchar sampleNative (.SetCache none) sampleWorld
        = (Options.mk 7 false,
           World.mk 0 [] ["Warning: SetCache not currently implemented"])
    ∧ ¬ ∃ (name : String) (v : CVal),
        ((Options.mk 7 false).run sampleBoolToUchar sampleNative (.SetReadOnly true)
            sampleWorld).2.calls
          = (call sampleNative ⟨name, [.ptr 7, v]⟩ sampleWorld).2.calls := by
  refine ⟨rfl, rfl, ?_⟩
  rintro ⟨name, v, h⟩
  simp [Options.run, call, sampleWorld] at h

/-- C8, amended.  Every setter of `Options`, `ReadOptions` and `WriteOptions`
other than `SetReadOnly` and the four stubbed setters (`SetCache`,
`SetBlockSize`, `SetBlockRestartInterval`, `SetFilterPolicy`) makes exactly one
native call and changes nothing else: the call is the native set function of
that option, its first argument is the `Opt` handle of the object itself and
its second argument is the argument of the setter converted to the C type of
the parameter (a Go `int` to C `int`, or to `size_t` in `SetWriteBufferSize`;
a `uint` to C `unsigned`; a `uint64` to `uint64_t`; a `bool` through
`boolToUchar`, or to 1 and 0 in `DisableWAL`; a string as a C string; a
pointer as it is, a nil snapshot as NULL).  Each conversion yields the value of
the C type that is congruent to the argument modulo the size of the type, so
an argument that is a value of the C type is passed as it is.
`SetReadOnly(b)` makes no native call and stores `b` in the `readOnly` field
of the Go object.  No setter has an error result. -/
theorem setters_forward_to_own_handle {σ : Type} (boolToUchar : Bool → Int) (N : Native σ)
    (o : Options) (ro : ReadOptions) (wo : WriteOptions) (w : World σ) (n : Int) (u : Nat)
    (b : Bool) (dir : String) (p : Handle) (env : Env) (sn : Snapshot) :
    (
        o.run boolToUchar N (.SetLogLevel n) w
          = (o, (call N ⟨"rocksdb_options_set_info_log_level", [.ptr o.Opt, .int (C.int n)]⟩ w).2)
      ∧ o.run boolToUchar N (.SetLogDir dir) w
          = (o, (call N ⟨"rocksdb_options_set_db_log_dir", [.ptr o.Opt, .str dir]⟩ w).2)
      ∧ o.run boolToUchar N (.SetWalDir dir) w
          = (o, (call N ⟨"rocksdb_options_set_wal_dir", [.ptr o.Opt, .str dir]⟩ w).2)
      ∧ o.run boolToUchar N (.SetStatsDumpPeriod u) w
          = (o, (call N ⟨"rocksdb_options_set_stats_dump_period_sec", [.ptr o.Opt, .int (C.uint u)]⟩ w).2)
      ∧ o.run boolToUchar N (.SetTargetFileSizeBase u) w
          = (o, (call N ⟨"rocksdb_options_set_target_file_size_base", [.ptr o.Opt, .int (C.uint64_t u)]⟩ w).2)
      ∧ o.run boolToUchar N (.SetTargetFileSizeMultiplier n) w
          = (o, (call N ⟨"rocksdb_options_set_target_file_size_multiplier", [.ptr o.Opt, .int (C.int n)]⟩ w).2)
      ∧ o.run boolToUchar N (.SetBytesPerSync u) w
          = (o, (call N ⟨"rocksdb_options_set_bytes_per_sync", [.ptr o.Opt, .int (C.uint64_t u)]⟩ w).2)
      ∧ o.run boolToUchar N (.SetNumLevels n) w
          = (o, (call N ⟨"rocksdb_options_set_num_levels", [.ptr o.Opt, .int (C.int n)]⟩ w).2)
      ∧ o.run boolToUchar N (.SetLevel0FileNumCompactionTrigger n) w
          = (o, (call N ⟨"rocksdb_options_set_level0_file_num_compaction_trigger", [.ptr o.Opt, .int (C.int n)]⟩ w).2)
      ∧ o.run boolToUchar N (.SetMaxBackgroundCompactions n) w
          = (o, (call N ⟨"rocksdb_options_set_max_background_compactions", [.ptr o.Opt, .int (C.int n)]⟩ w).2)
      ∧ o.run boolToUchar N (.SetMaxBackgroundFlushes n) w
          = (o, (call N ⟨"rocksdb_options_set_max_background_flushes", [.ptr o.Opt, .int (C.int n)]⟩ w).2)
      ∧ o.run boolToUchar N (.SetAllowMMapReads b) w
          = (o, (call N ⟨"rocksdb_options_set_allow_mmap_reads", [.ptr o.Opt, .int (boolToUchar b)]⟩ w).2)
      ∧ o.run boolToUchar N (.SetAllowMMapWrites b) w
          = (o, (call N ⟨"rocksdb_options_set_allow_mmap_writes", [.ptr o.Opt, .int (boolToUchar b)]⟩ w).2)
      ∧ o.run boolToUchar N (.SetAllowOSBuffer b) w
          = (o, (call N ⟨"rocksdb_options_set_allow_os_buffer", [.ptr o.Opt, .int (boolToUchar b)]⟩ w).2)
      ∧ o.run boolToUchar N (.SetMaxWriteBufferNumber n) w
          = (o, (call N ⟨"rocksdb_options_set_max_write_buffer_number", [.ptr o.Opt, .int (C.int n)]⟩ w).2)
      ∧ o.run boolToUchar N (.SetMinWriteBufferNumberToMerge n) w
          = (o, (call N ⟨"rocksdb_options_set_min_write_buffer_number_to_merge", [.ptr o.Opt, .int (C.int n)]⟩ w).2)
      ∧ o.run boolToUchar N (.SetDisableDataSync b) w
          = (o, (call N ⟨"rocksdb_options_set_disable_data_sync", [.ptr o.Opt, .int (C.int (boolToUchar b))]⟩ w).2)
      ∧ o.run boolToUchar N (.SetComparator p) w
          = (o, (call N ⟨"rocksdb_options_set_comparator", [.ptr o.Opt, .ptr p]⟩ w).2)
      ∧ o.run boolToUchar N (.SetErrorIfExists b) w
          = (o, (call N ⟨"rocksdb_options_set_error_if_exists", [.ptr o.Opt, .int (boolToUchar b)]⟩ w).2)
      ∧ o.run boolToUchar N (.SetEnv env) w
          = (o, (call N ⟨"rocksdb_options_set_env", [.ptr o.Opt, .ptr env.Env]⟩ w).2)
      ∧ o.run boolToUchar N (.SetInfoLog p) w
          = (o, (call N ⟨"rocksdb_options_set_info_log", [.ptr o.Opt, .ptr p]⟩ w).2)
      ∧ o.run boolToUchar N (.SetWriteBufferSize n) w
          = (o, (call N ⟨"rocksdb_options_set_write_buffer_size", [.ptr o.Opt, .int (C.size_t n)]⟩ w).2)
      ∧ o.run boolToUchar N (.SetParanoidChecks b) w
          = (o, (call N ⟨"rocksdb_options_set_paranoid_checks", [.ptr o.Opt, .int (boolToUchar b)]⟩ w).2)
      ∧ o.run boolToUchar N (.SetMaxOpenFiles n) w
          = (o, (call N ⟨"rocksdb_options_set_max_open_files", [.ptr o.Opt, .int (C.int n)]⟩ w).2)
      ∧ o.run boolToUchar N (.SetCompression n) w
          = (o, (call N ⟨"rocksdb_options_set_compression", [.ptr o.Opt, .int (C.int n)]⟩ w).2)
      ∧ o.run boolToUchar N (.SetCreateIfMissing b) w
          = (o, (call N ⟨"rocksdb_options_set_create_if_missing", [.ptr o.Opt, .int (boolToUchar b)]⟩ w).2)
      ∧ o.run boolToUchar N (.IncreaseParallelism n) w
          = (o, (call N ⟨"rocksdb_options_increase_parallelism", [.ptr o.Opt, .int (C.int n)]⟩ w).2))
    ∧ (
        ro.run boolToUchar N (.SetVerifyChecksums b) w
          = (ro, (call N ⟨"rocksdb_readoptions_set_verify_checksums", [.ptr ro.Opt, .int (boolToUchar b)]⟩ w).2)
      ∧ ro.run boolToUchar N (.SetFillCache b) w
          = (ro, (call N ⟨"rocksdb_readoptions_set_fill_cache", [.ptr ro.Opt, .int (boolToUchar b)]⟩ w).2)
      ∧ ro.run boolToUchar N (.SetSnapshot (some sn)) w
          = (ro, (call N ⟨"rocksdb_readoptions_set_snapshot", [.ptr ro.Opt, .ptr sn.snap]⟩ w).2)
      ∧ ro.run boolToUchar N (.SetSnapshot none) w
          = (ro, (call N ⟨"rocksdb_readoptions_set_snapshot", [.ptr ro.Opt, .ptr 0]⟩ w).2))
    ∧ (
        wo.run boolToUchar N (.SetSync b) w
          = (wo, (call N ⟨"rocksdb_writeoptions_set_sync", [.ptr wo.Opt, .int (boolToUchar b)]⟩ w).2)
      ∧ wo.run boolToUchar N (.DisableWAL b) w
          = (wo, (call N ⟨"rocksdb_writeoptions_disable_WAL", [.ptr wo.Opt, .int (if b = true then 1 else 0)]⟩ w).2))
    ∧ o.run boolToUchar N (.SetReadOnly b) w = (Options.mk o.Opt b, w)
    ∧ ((-2147483648 ≤ C.int n ∧ C.int n < 2147483648 ∧ (C.int n - n) % 4294967296 = 0)
      ∧ (0 ≤ C.uint u ∧ C.uint u < 4294967296 ∧ (C.uint u - u) % 4294967296 = 0)
      ∧ (0 ≤ C.uint64_t u ∧ C.uint64_t u < 18446744073709551616
          ∧ (C.uint64_t u - u) % 18446744073709551616 = 0)
      ∧ (0 ≤ C.size_t n ∧ C.size_t n < 18446744073709551616
          ∧ (C.size_t n - n) % 18446744073709551616 = 0)) := by
  refine ⟨?_, ?_, ?_, rfl, ?_, ?_, ?_, ?_⟩
  · exact ⟨rfl, rfl, rfl, rfl, rfl, rfl, rfl, rfl, rfl, rfl, rfl, rfl, rfl, rfl, rfl, rfl, rfl, rfl, rfl, rfl, rfl, rfl, rfl, rfl, rfl, rfl, rfl⟩
  · exact ⟨rfl, rfl, rfl, rfl⟩
  · refine ⟨rfl, ?_⟩
    cases b
    · rfl
    · rfl
  · unfold C.int
    omega
  · unfold C.uint
    omega
  · unfold C.uint64_t
    omega
  · unfold C.size_t
    omega

/-- Witness of the amended C8 on the sample library: `SetLogLevel(3)` on the
options at pointer 7 makes the one call
`rocksdb_options_set_info_log_level(7, 3)`. -/
theorem setters_forward_to_own_handle_witness :
    (Options.mk 7 false).run sampleBoolToUchar sampleNative (.SetLogLevel 3) sampleWorld
        = (Options.mk 7 false,
           World.mk 1 [⟨"rocksdb_options_set_info_log_level", [.ptr 7, .int 3]⟩] []) :=
  (setters_forward_to_own_handle sampleBoolToUchar sampleNative (Options.mk 7 false)
      (ReadOptions.mk 8) (WriteOptions.mk 9) sampleWorld 3 0 true "" 0 (Env.mk 0)
      (Snapshot.mk 0)).1.1.trans (by rfl)

/-- C9: for every `WriteOptions` and every boolean `b`, `DisableWAL(b)` makes
exactly one native call, `rocksdb_writeoptions_disable_WAL` on the `Opt` handle
of the object itself, with the integer 1 when `b` is true and 0 when `b` is
false; nothing is logged. -/
theorem DisableWAL_one_native_call {σ : Type} (N : Native σ) (wo : WriteOptions) (b : Bool)
    (w : World σ) :
    wo.DisableWAL N b w
        = (call N ⟨"rocksdb_writeoptions_disable_WAL",
            [.ptr wo.Opt, .int (if b = true then 1 else 0)]⟩ w).2
    ∧ (wo.DisableWAL N b w).calls
        = w.calls ++ [⟨"rocksdb_writeoptions_disable_WAL",
            [.ptr wo.Opt, .int (if b = true then 1 else 0)]⟩]
    ∧ (wo.DisableWAL N b w).logged = w.logged := by
  have h1 : C.int 1 = 1 := by decide
  have h0 : C.int 0 = 0 := by decide
  cases b <;> simp [WriteOptions.DisableWAL, call, h1, h0]

/-- C10: each accessor narrows its index to a 32-bit C `int` and makes one
native query with the narrowed index on the `Info` handle of the snapshot: the
index passed is the one value between -2^31 and 2^31 - 1 that is congruent to
the Go index modulo 2^32.  So an index and the index 2^32 further on give the
same native query and the same result, also when the sum is taken with the
wrap-around of the 64-bit Go `int`; in particular the index 2^32 is answered
as the index 0: the query that reaches the library carries the index 0. -/
theorem accessors_index_modulo_two_pow_32 {σ : Type} (N : Native σ) (bei : BackupEngineInfo)
    (i : Int) (w : World σ) :
    (
        bei.BackupId N i w
          = (Rocksdb.int (C.uint32_t (call N ⟨"rocksdb_backup_engine_info_backup_id",
                [.ptr bei.Info, .int (C.int i)]⟩ w).1.num),
             (call N ⟨"rocksdb_backup_engine_info_backup_id", [.ptr bei.Info, .int (C.int i)]⟩ w).2)
      ∧ bei.Timestamp N i w
          = (Rocksdb.int (C.int64_t (call N ⟨"rocksdb_backup_engine_info_timestamp",
                [.ptr bei.Info, .int (C.int i)]⟩ w).1.num),
             (call N ⟨"rocksdb_backup_engine_info_timestamp", [.ptr bei.Info, .int (C.int i)]⟩ w).2)
      ∧ bei.Size N i w
          = (Rocksdb.int (C.uint64_t (call N ⟨"rocksdb_backup_engine_info_size",
                [.ptr bei.Info, .int (C.int i)]⟩ w).1.num),
             (call N ⟨"rocksdb_backup_engine_info_size", [.ptr bei.Info, .int (C.int i)]⟩ w).2)
      ∧ bei.NumberFiles N i w
          = (Rocksdb.int (C.uint32_t (call N ⟨"rocksdb_backup_engine_info_number_files",
                [.ptr bei.Info, .int (C.int i)]⟩ w).1.num),
             (call N ⟨"rocksdb_backup_engine_info_number_files", [.ptr bei.Info, .int (C.int i)]⟩ w).2))
    ∧ (-2147483648 ≤ C.int i ∧ C.int i < 2147483648 ∧ (C.int i - i) % 4294967296 = 0)
    ∧ (
        bei.BackupId N (i + 4294967296) w = bei.BackupId N i w
      ∧ bei.Timestamp N (i + 4294967296) w = bei.Timestamp N i w
      ∧ bei.Size N (i + 4294967296) w = bei.Size N i w
      ∧ bei.NumberFiles N (i + 4294967296) w = bei.NumberFiles N i w)
    ∧ (
        bei.BackupId N (Rocksdb.int (i + 4294967296)) w = bei.BackupId N i w
      ∧ bei.Timestamp N (Rocksdb.int (i + 4294967296)) w = bei.Timestamp N i w
      ∧ bei.Size N (Rocksdb.int (i + 4294967296)) w = bei.Size N i w
      ∧ bei.NumberFiles N (Rocksdb.int (i + 4294967296)) w = bei.NumberFiles N i w)
    ∧ (
        bei.BackupId N 4294967296 w = bei.BackupId N 0 w
      ∧ bei.Timestamp N 4294967296 w = bei.Timestamp N 0 w
      ∧ bei.Size N 4294967296 w = bei.Size N 0 w
      ∧ bei.NumberFiles N 4294967296 w = bei.NumberFiles N 0 w)
    ∧ (
        (bei.BackupId N 4294967296 w).2.calls
          = w.calls ++ [⟨"rocksdb_backup_engine_info_backup_id", [.ptr bei.Info, .int 0]⟩]
      ∧ (bei.Timestamp N 4294967296 w).2.calls
          = w.calls ++ [⟨"rocksdb_backup_engine_info_timestamp", [.ptr bei.Info, .int 0]⟩]
      ∧ (bei.Size N 4294967296 w).2.calls
          = w.calls ++ [⟨"rocksdb_backup_engine_info_size", [.ptr bei.Info, .int 0]⟩]
      ∧ (bei.NumberFiles N 4294967296 w).2.calls
          = w.calls ++ [⟨"rocksdb_backup_engine_info_number_files", [.ptr bei.Info, .int 0]⟩]) := by
  have h : C.int (i + 4294967296) = C.int i := cInt_add_two_pow_32 i
  have hw : C.int (Rocksdb.int (i + 4294967296)) = C.int i := by
    rw [cInt_goInt, cInt_add_two_pow_32]
  have hz : C.int 4294967296 = 0 := by decide
  have hz0 : C.int 0 = 0 := by decide
  refine ⟨⟨rfl, rfl, rfl, rfl⟩, ?_, ⟨?_, ?_, ?_, ?_⟩, ⟨?_, ?_, ?_, ?_⟩, ⟨?_, ?_, ?_, ?_⟩,
    ⟨?_, ?_, ?_, ?_⟩⟩
  · unfold C.int
    omega
  all_goals
    simp only [BackupEngineInfo.BackupId, BackupEngineInfo.Timestamp, BackupEngineInfo.Size,
      BackupEngineInfo.NumberFiles, h, hw, hz, hz0, call]

end Rocksdb
